import Mathlib

/-!
Shallow embedding of the copyfile diagnostic harness: a standalone
command-line probe (src/test.c) and an R-bound probe
(src/src/copyfile.c), both invoking the platform copyfile primitive and
reporting its return code, the system error number and its textual
description.
-/

namespace Copyfile

/-- Modelled from the spec: the platform header's copy-all mask (data
plus metadata bits).  The header itself is external to the repository;
the exact numeric value is immaterial to the probes, which only pass the
mask through. -/
def COPYFILE_ALL : Nat := 15

/-- Modelled from the spec: the platform header's exclusive-create flag,
bit 17 of the flags word.  The header itself is external to the
repository. -/
def COPYFILE_EXCL : Nat := 1 <<< 17

/-- From src/src/copyfile.c line 2: `#define COPYFILE_DEBUG (1<<31)`,
read as a 32-bit word. -/
def COPYFILE_DEBUG : Nat := (1 <<< 31) % 2 ^ 32

/-- Modelled from the spec: the system error number reported for the
exclusive-create conflict (destination already exists). -/
def EEXIST : Nat := 17

/-- Modelled from the spec: the system error number reported for a
missing source path ("not found"). -/
def ENOENT : Nat := 2

/-- Modelled from the spec: the C library's textual description of a
system error number, as obtained by the probes for printing. -/
def strerror (e : Nat) : String :=
  if e = 0 then "Success"
  else if e = ENOENT then "No such file or directory"
  else if e = EEXIST then "File exists"
  else "Unknown error " ++ toString e

/-- The file system as a finite association of path names to file
contents. -/
abbrev FS := List (String × String)

/-- An opaque copy-operation context, as allocated by the external
`copyfile_state_alloc`.  The id distinguishes allocations. -/
structure CopyState where
  id : Nat
deriving DecidableEq

/-- Outcome of one call of the copy primitive: its return code, the
system error number it left behind (the caller having reset it to 0
beforehand), and the resulting file system. -/
structure CopyResult where
  res : Int
  errno : Nat
  fs : FS
deriving DecidableEq

/-- Modelled from the spec: the external copy primitive.  It duplicates
the source path's contents to the destination path; with the
exclusive-create flag (bit 17) set it fails when the destination already
exists, and it fails with "not found" when the source path is missing.
Success returns 0 and leaves the error number at 0; failure returns -1
and sets the error number. -/
def copyfile (fs : FS) (src dst : String) ( _st : Option CopyState) (flags : Nat) : CopyResult :=
  if flags.testBit 17 && (fs.lookup dst).isSome then
    ⟨-1, EEXIST, fs⟩
  else
    match fs.lookup src with
    | none => ⟨-1, ENOENT, fs⟩
    | some data => ⟨0, 0, (dst, data) :: fs⟩

/-- One invocation of the copy primitive as issued by a probe: the two
path arguments, the state argument, and the flags word. -/
structure CopyCall where
  src : String
  dst : String
  state : Option CopyState
  flags : Nat
deriving DecidableEq

/-- The "%i:%i:%s" result triple both probes format: return code, error
number, and the error number's description. -/
def tripleStr (res : Int) (e : Nat) : String :=
  toString res ++ ":" ++ toString e ++ ":" ++ strerror e

/-- The flags word of the standalone probe, src/test.c line 8:
COPYFILE_ALL | COPYFILE_EXCL. -/
def stdFlags : Nat := COPYFILE_ALL ||| COPYFILE_EXCL

/-- Observable behaviour of one run of the standalone probe: process
exit code, text written to standard output, and the copy calls made. -/
structure MainOutput where
  exitCode : Nat
  stdout : String
  calls : List CopyCall
deriving DecidableEq

/-- From src/test.c, `main`: reset errno, call the copy primitive on
argv[1] and argv[2] with a null state and COPYFILE_ALL | COPYFILE_EXCL,
print the result triple on stdout when the return value is -1, and exit
with errno.  The embedding returns none when the argument vector lacks
slots 1 or 2, where the C code would index out of bounds. -/
def main (fs : FS) (argv : List String) : Option MainOutput :=
  match argv.get? 1, argv.get? 2 with
  | some src, some dst =>
    let r := copyfile fs src dst none stdFlags
    some ⟨r.errno,
          if r.res = -1 then tripleStr r.res r.errno else "",
          [⟨src, dst, none, stdFlags⟩]⟩
  | _, _ => none

/-- R values, as far as the bound probe observes them: the distinguished
null value R_NilValue and anything else. -/
inductive SEXP
  | RNilValue
  | other (s : String)
deriving DecidableEq

/-- The flags word of the bound probe, src/src/copyfile.c line 15:
COPYFILE_ALL | COPYFILE_EXCL | COPYFILE_DEBUG. -/
def boundFlags : Nat := COPYFILE_ALL ||| COPYFILE_EXCL ||| COPYFILE_DEBUG

/-- Observable behaviour of one run of the bound probe: the R value
returned, the text printed through Rprintf, and the copy calls made. -/
structure BoundOutput where
  ret : SEXP
  printed : String
  calls : List CopyCall
deriving DecidableEq

/-- From src/src/copyfile.c, `copyfile_`: reset errno, allocate a copy
state (the parameter `alloc` is whatever the external allocator
returned; the code stores it in `s` and never uses it), call the copy
primitive on the literals "a" and "b" with a null state and
COPYFILE_ALL | COPYFILE_EXCL | COPYFILE_DEBUG, unconditionally print the
result triple followed by a newline, and return R_NilValue. -/
def copyfile_ (alloc : CopyState) (fs : FS) : BoundOutput :=
  let _s := alloc
  let r := copyfile fs "a" "b" none boundFlags
  ⟨SEXP.RNilValue,
   tripleStr r.res r.errno ++ "\n",
   [⟨"a", "b", none, boundFlags⟩]⟩

/-- A file system where the source "a" exists and the destination "b"
does not: the copy succeeds. -/
def fsA : FS := [("a", "x")]

/-- A file system where both "a" and "b" exist: the exclusive-create
copy fails with EEXIST. -/
def fsAB : FS := [("a", "x"), ("b", "y")]

/-- In the model, a return code of 0 means the error number was left
at 0. -/
theorem copyfile_res_zero_errno (fs : FS) (src dst : String) (st : Option CopyState)
    (flags : Nat) :
    (copyfile fs src dst st flags).res = 0 → (copyfile fs src dst st flags).errno = 0 := by
  unfold copyfile
  split
  · intro h
    simp at h
  · split
    · intro h
      simp at h
    · intro h
      rfl

/-- The formatted result triple is never the empty string. -/
theorem tripleStr_ne_empty (res : Int) (e : Nat) : tripleStr res e ≠ "" := by
  unfold tripleStr
  intro h
  have hl := congrArg String.length h
  simp [String.length_append] at hl
  exact absurd hl.1.1.1.2 (by decide)

/-- With the exclusive-create bit set and the destination present, the
modelled primitive fails with EEXIST and leaves the file system
unchanged. -/
theorem copyfile_excl_exists (fs : FS) (src dst : String) (st : Option CopyState)
    (flags : Nat) (hb : flags.testBit 17 = true) (h : (fs.lookup dst).isSome = true) :
    copyfile fs src dst st flags = ⟨-1, EEXIST, fs⟩ := by
  unfold copyfile
  rw [if_pos (by simp [hb, h])]

/-- Evaluation of the standalone probe on an argument vector with slots
1 and 2 present. -/
theorem main_cons_eq (fs : FS) (prog src dst : String) (rest : List String) :
    main fs (prog :: src :: dst :: rest) =
      some ⟨(copyfile fs src dst none stdFlags).errno,
            if (copyfile fs src dst none stdFlags).res = -1 then
              tripleStr (copyfile fs src dst none stdFlags).res
                (copyfile fs src dst none stdFlags).errno
            else "",
            [⟨src, dst, none, stdFlags⟩]⟩ := rfl

/-- The modelled primitive inspects the flags word only through bit 17,
the exclusive-create bit, and ignores its state argument. -/
theorem copyfile_flags_only_bit17 (fs : FS) (src dst : String)
    (st1 st2 : Option CopyState) (f1 f2 : Nat)
    (h : f1.testBit 17 = f2.testBit 17) :
    copyfile fs src dst st1 f1 = copyfile fs src dst st2 f2 := by
  unfold copyfile
  rw [h]

/-- C1: for every invocation of the standalone probe with two path
arguments, the process exit code equals the system error number captured
after the copy call, for both success and failure; a successful copy
(which leaves the reset error number at 0) yields exit code 0. -/
theorem main_exit_code_eq_errno (fs : FS) (prog src dst : String) (rest : List String) :
    ∃ out, main fs (prog :: src :: dst :: rest) = some out ∧
      out.exitCode = (copyfile fs src dst none stdFlags).errno ∧
      ((copyfile fs src dst none stdFlags).res = 0 → out.exitCode = 0) := by
  refine ⟨_, main_cons_eq fs prog src dst rest, rfl,
    fun h => copyfile_res_zero_errno fs src dst none stdFlags h⟩

/-- Witness for C1 at a concrete file system and argument vector. -/
theorem main_exit_code_eq_errno_witness :
    ∃ out, main fsA ["prog", "a", "b"] = some out ∧
      out.exitCode = (copyfile fsA "a" "b" none stdFlags).errno ∧
      ((copyfile fsA "a" "b" none stdFlags).res = 0 → out.exitCode = 0) :=
  main_exit_code_eq_errno fsA "prog" "a" "b" []

/-- C2: the standalone probe prints the return code, the captured error
number and its description exactly when the copy call returns -1; on
success nothing is printed. -/
theorem main_prints_iff_error (fs : FS) (prog src dst : String) (rest : List String) :
    ∃ out, main fs (prog :: src :: dst :: rest) = some out ∧
      (out.stdout ≠ "" ↔ (copyfile fs src dst none stdFlags).res = -1) ∧
      ((copyfile fs src dst none stdFlags).res = -1 →
        out.stdout = tripleStr (copyfile fs src dst none stdFlags).res
          (copyfile fs src dst none stdFlags).errno) := by
  refine ⟨_, main_cons_eq fs prog src dst rest, ?_, ?_⟩
  · by_cases hres : (copyfile fs src dst none stdFlags).res = -1
    · simp [hres, tripleStr_ne_empty]
    · simp [hres]
  · intro hres
    simp [hres]

/-- Witness for C2 at a concrete file system (destination exists, so the
copy fails) and argument vector. -/
theorem main_prints_iff_error_witness :
    ∃ out, main fsAB ["prog", "a", "b"] = some out ∧
      (out.stdout ≠ "" ↔ (copyfile fsAB "a" "b" none stdFlags).res = -1) ∧
      ((copyfile fsAB "a" "b" none stdFlags).res = -1 →
        out.stdout = tripleStr (copyfile fsAB "a" "b" none stdFlags).res
          (copyfile fsAB "a" "b" none stdFlags).errno) :=
  main_prints_iff_error fsAB "prog" "a" "b" []

/-- C4: the bound probe takes no path arguments and invokes the copy
primitive exactly once, on the literals "a" and "b", with a null state
and COPYFILE_ALL | COPYFILE_EXCL | COPYFILE_DEBUG. -/
theorem bound_calls_once (alloc : CopyState) (fs : FS) :
    (copyfile_ alloc fs).calls =
      [⟨"a", "b", none, COPYFILE_ALL ||| COPYFILE_EXCL ||| COPYFILE_DEBUG⟩] := rfl

/-- C5: for every outcome of the copy call the bound probe returns
R_NilValue to its caller. -/
theorem bound_returns_nil (alloc : CopyState) (fs : FS) :
    (copyfile_ alloc fs).ret = SEXP.RNilValue := rfl

/-- C8: the allocated copy-operation context is never passed to the copy
primitive (the call's state argument is null), and the allocation has no
effect on the probe's calls, result or printed output. -/
theorem bound_alloc_unused (a b : CopyState) (fs : FS) :
    copyfile_ a fs = copyfile_ b fs ∧
    (copyfile_ a fs).calls.map CopyCall.state = [none] :=
  ⟨rfl, rfl⟩

/-- C10: COPYFILE_DEBUG, defined as 1 shifted left by 31 bits in a
32-bit word, equals 2^31 and occupies bit 31 (the sign bit of a signed
32-bit integer); the bound probe's flags word is the bitwise or of the
copy-all mask, the exclusive-create flag, and 2^31. -/
theorem debug_flag_bit31 :
    COPYFILE_DEBUG = 2 ^ 31 ∧
    COPYFILE_DEBUG.testBit 31 = true ∧
    COPYFILE_DEBUG < 2 ^ 32 ∧
    boundFlags = COPYFILE_ALL ||| COPYFILE_EXCL ||| 2 ^ 31 := by
  decide

/-- C6: for an already-existing destination path, the standalone probe
exits with the nonzero error number of the exclusive-create conflict and
prints the result triple carrying that error number's description. -/
theorem main_dest_exists_eexist (fs : FS) (prog src dst : String) (rest : List String)
    (h : (fs.lookup dst).isSome = true) :
    ∃ out, main fs (prog :: src :: dst :: rest) = some out ∧
      out.exitCode = EEXIST ∧ out.exitCode ≠ 0 ∧
      out.stdout = tripleStr (-1) EEXIST := by
  have hc : copyfile fs src dst none stdFlags = ⟨-1, EEXIST, fs⟩ :=
    copyfile_excl_exists fs src dst none stdFlags (by decide) h
  refine ⟨_, main_cons_eq fs prog src dst rest, ?_, ?_, ?_⟩ <;>
    simp [hc, EEXIST]

/-- Witness for C6: a file system where the destination "b" already
exists. -/
theorem main_dest_exists_eexist_witness :
    (fsAB.lookup "b").isSome = true ∧
    (∃ out, main fsAB ["prog", "a", "b"] = some out ∧
      out.exitCode = EEXIST ∧ out.exitCode ≠ 0 ∧
      out.stdout = tripleStr (-1) EEXIST) :=
  ⟨by decide, main_dest_exists_eexist fsAB "prog" "a" "b" [] (by decide)⟩

/-- C9: the standalone probe reads argument slots 1 and 2
unconditionally; both accesses are in bounds, and the probe's behaviour
is defined, exactly when the argument vector has at least a program name
and two path arguments. -/
theorem main_reads_argv_slots (fs : FS) (argv : List String) :
    (((argv.get? 1).isSome ∧ (argv.get? 2).isSome) ↔ 3 ≤ argv.length) ∧
    ((main fs argv).isSome ↔ 3 ≤ argv.length) := by
  rcases argv with _ | ⟨p, _ | ⟨a, _ | ⟨b, rest⟩⟩⟩ <;>
    simp [main]

/-- Witness for C9 at a two-element argument vector, where slot 2 is out
of bounds. -/
theorem main_reads_argv_slots_witness :
    ((((["prog", "a"] : List String).get? 1).isSome ∧
      ((["prog", "a"] : List String).get? 2).isSome) ↔
       3 ≤ (["prog", "a"] : List String).length) ∧
    ((main fsA ["prog", "a"]).isSome ↔ 3 ≤ (["prog", "a"] : List String).length) :=
  main_reads_argv_slots fsA ["prog", "a"]

/-- C3 as stated is false: on a success outcome the bound probe prints
the result triple while the standalone probe prints nothing, so the two
probes do not produce the same printed output for every outcome. -/
theorem bound_vs_main_printed_cex :
    (main fsA ["prog", "a", "b"]).map MainOutput.stdout = some "" ∧
    (copyfile_ ⟨0⟩ fsA).printed = "0:0:Success\n" ∧
    (main fsA ["prog", "a", "b"]).map MainOutput.stdout ≠
      some ((copyfile_ ⟨0⟩ fsA).printed) := by
  decide

/-- C3 amended: invoked on "a" and "b", the two probes make the same
copy call up to the debug bit in the flags word; the bound probe always
prints the result triple of that call followed by a newline, while the
standalone probe prints the triple, without a newline, only when the
call returns -1. -/
theorem bound_vs_main_amended (alloc : CopyState) (fs : FS) :
    ∃ out, main fs ["prog", "a", "b"] = some out ∧
      out.calls = [⟨"a", "b", none, stdFlags⟩] ∧
      (copyfile_ alloc fs).calls = [⟨"a", "b", none, stdFlags ||| COPYFILE_DEBUG⟩] ∧
      (copyfile_ alloc fs).printed =
        tripleStr (copyfile fs "a" "b" none stdFlags).res
          (copyfile fs "a" "b" none stdFlags).errno ++ "\n" ∧
      out.stdout =
        (if (copyfile fs "a" "b" none stdFlags).res = -1 then
          tripleStr (copyfile fs "a" "b" none stdFlags).res
            (copyfile fs "a" "b" none stdFlags).errno
        else "") := by
  have hflag : copyfile fs "a" "b" none boundFlags = copyfile fs "a" "b" none stdFlags :=
    copyfile_flags_only_bit17 fs "a" "b" none none boundFlags stdFlags (by decide)
  refine ⟨_, main_cons_eq fs "prog" "a" "b" [], rfl, rfl, ?_, rfl⟩
  show tripleStr (copyfile fs "a" "b" none boundFlags).res
      (copyfile fs "a" "b" none boundFlags).errno ++ "\n" = _
  rw [hflag]

/-- C7 as stated is false: the bound probe's printed text carries a
trailing newline after the "<result>:<errno>:<error-string>" triple. -/
theorem bound_format_cex :
    (copyfile_ ⟨0⟩ fsAB).printed = "-1:17:File exists\n" ∧
    (copyfile_ ⟨0⟩ fsAB).printed ≠ "-1:17:File exists" ∧
    tripleStr (-1) EEXIST = "-1:17:File exists" := by
  decide

/-- C7 amended: on every invocation the bound probe prints exactly the
result triple "<result>:<errno>:<error-string>" followed by a
newline. -/
theorem bound_format_amended (alloc : CopyState) (fs : FS) :
    (copyfile_ alloc fs).printed =
      tripleStr (copyfile fs "a" "b" none boundFlags).res
        (copyfile fs "a" "b" none boundFlags).errno ++ "\n" := rfl

end Copyfile
